import Mathlib

/-!
Verification of the request-handling layer of the image-website service
(src/backend/main.py). The Flask handlers are embedded as pure Lean
functions: the Google Cloud Storage bucket is an external collaborator, so
its observable outcomes (enumeration result, per-blob signing outcome,
write/delete outcome) are explicit parameters, and bucket contents are an
association list from blob name to blob data. Responses are a status code
paired with a JSON value, mirroring the `jsonify(...), code` pairs of the
source. Logging calls carry no observable behaviour and are omitted.
-/

namespace ImageWebsite

/-- JSON values as produced by `jsonify` in the handlers. -/
inductive Json where
  | null : Json
  | str : String → Json
  | num : Nat → Json
  | arr : List Json → Json
  | obj : List (String × Json) → Json

/-- An HTTP response: status code paired with JSON body. -/
abbrev Response := Nat × Json

/-- HTTP methods, as passed to `generate_signed_url(method=...)`. -/
inductive HttpMethod where
  | GET : HttpMethod
  | PUT : HttpMethod
  | POST : HttpMethod
  | DELETE : HttpMethod
deriving DecidableEq, Repr

/-- The arguments a handler passes to `blob.generate_signed_url`:
the blob name, the expiration in minutes, and the HTTP method. -/
structure SignRequest where
  blobName : String
  expiryMinutes : Nat
  method : HttpMethod
deriving DecidableEq, Repr

/-- A signer: the external signing operation. `some url` when
`generate_signed_url` returns a URL, `none` when it raises. -/
abbrev Signer := SignRequest → Option String

/-- A blob as seen by `bucket.list_blobs()`: name, size, and optional
last-modified timestamp (`blob.updated` may be `None`). -/
structure Blob where
  name : String
  size : Nat
  updated : Option String
deriving DecidableEq, Repr

/-- The signing request both list handlers build for a blob: source lines
97-101 and 122-126 call `generate_signed_url(version="v4",
expiration=datetime.timedelta(minutes=15), method="GET")`. -/
def signReq (b : Blob) : SignRequest :=
  { blobName := b.name, expiryMinutes := 15, method := HttpMethod.GET }

/-- The loop body of `get_image_urls`: for each blob try to sign; on
success append the URL, on failure log and continue (no placeholder). -/
def collectUrls (sign : Signer) : List Blob → List String
  | [] => []
  | b :: rest =>
    match sign (signReq b) with
    | some url => url :: collectUrls sign rest
    | none => collectUrls sign rest

/-- Handler for GET /api/images (`get_image_urls`, main.py lines 87-106):
on successful enumeration return 200 with the list of signed URLs; if
enumeration raises, return 500 with the error message interpolated. -/
def get_image_urls (sign : Signer) (listing : Except String (List Blob)) : Response :=
  match listing with
  | Except.ok blobs => (200, Json.arr ((collectUrls sign blobs).map Json.str))
  | Except.error e =>
      (500, Json.obj [("error", Json.str ("Failed to retrieve image URLs: " ++ e))])

/-- Turn an optional string into the JSON the handlers emit (`None` becomes
JSON null). -/
def jsonOfOptStr : Option String → Json
  | none => Json.null
  | some s => Json.str s

/-- The record `list_image_metadata` appends for one blob (main.py lines
128-134): name, filename (duplicate of name), url (signed URL or null),
size, updated. -/
def blobRecord (sign : Signer) (b : Blob) : Json :=
  Json.obj
    [ ("name", Json.str b.name)
    , ("filename", Json.str b.name)
    , ("url", jsonOfOptStr (sign (signReq b)))
    , ("size", Json.num b.size)
    , ("updated", jsonOfOptStr b.updated) ]

/-- The loop body of `list_image_metadata`: one record per blob is appended
unconditionally; signing failure only leaves `signed_url = None`. -/
def collectMetadata (sign : Signer) : List Blob → List Json
  | [] => []
  | b :: rest => blobRecord sign b :: collectMetadata sign rest

/-- Handler for GET /api/list-images (`list_image_metadata`, main.py lines
111-141): 200 with one record per enumerated blob, or 500 if the
enumeration itself raises. -/
def list_image_metadata (sign : Signer) (listing : Except String (List Blob)) : Response :=
  match listing with
  | Except.ok blobs => (200, Json.arr (collectMetadata sign blobs))
  | Except.error e =>
      (500, Json.obj [("error", Json.str ("Failed to retrieve image list: " ++ e))])

/-- One entry of `request.files`: a werkzeug FileStorage with its filename,
declared content type, and byte stream. -/
structure FilePart where
  filename : String
  contentType : Option String
  content : List Nat
deriving DecidableEq, Repr

/-- What the store keeps for one blob name: the uploaded bytes and the
content type passed to `upload_from_file`. -/
structure BlobData where
  content : List Nat
  contentType : Option String
deriving DecidableEq, Repr

/-- Bucket contents: an association list from blob name to blob data. -/
abbrev Store := List (String × BlobData)

/-- `bucket.blob(name)` followed by `upload_from_file`: last writer wins,
so an existing entry under the same name is replaced. -/
def writeBlob (store : Store) (name : String) (data : BlobData) : Store :=
  match store with
  | [] => [(name, data)]
  | (k, v) :: rest =>
      if k == name then (name, data) :: rest else (k, v) :: writeBlob rest name data

/-- `blob.exists()` against the modelled bucket contents. -/
def blobExists (store : Store) (name : String) : Bool :=
  store.any (fun p => p.1 == name)

/-- `blob.delete()` against the modelled bucket contents. -/
def removeBlob (store : Store) (name : String) : Store :=
  store.filter (fun p => p.1 != name)

/-- Read back the data stored under a name. -/
def readBlob (store : Store) (name : String) : Option BlobData :=
  List.lookup name store

/-- The 400 body for a request without an `image` file part. -/
def noFilePartBody : Json :=
  Json.obj [("error", Json.str "No image file part in the request")]

/-- The 400 body for an empty filename. -/
def noSelectedFileBody : Json :=
  Json.obj [("error", Json.str "No selected file")]

/-- The 201 body of a successful upload (main.py lines 74-78). -/
def uploadSuccessBody (filename : String) : Json :=
  Json.obj
    [ ("message", Json.str ("File \x27" ++ filename ++ "\x27 uploaded successfully (privately)."))
    , ("filename", Json.str filename)
    , ("url", Json.null) ]

/-- The 500 body when the store write raises, carrying the message. -/
def uploadFailBody (e : String) : Json :=
  Json.obj [("error", Json.str ("Failed to upload file: " ++ e))]

/-- The 500 body of the final `else` fallback in `upload_file`. -/
def unexpectedUploadBody : Json :=
  Json.obj [("error", Json.str "An unexpected error occurred during file processing")]

/-- Handler for POST /api/upload (`upload_file`, main.py lines 56-85).
`files` is `request.files`; `writeResult` is the outcome of
`blob.upload_from_file`. The `if file:` truthiness test of a werkzeug
FileStorage is `bool(self.filename)`, i.e. the filename being non-empty.
The handler returns the response together with the resulting bucket
contents; validation failures perform no store write. -/
def upload_file (files : List (String × FilePart)) (store : Store)
    (writeResult : Except String Unit) : Response × Store :=
  match List.lookup "image" files with
  | none => ((400, noFilePartBody), store)
  | some file =>
    if file.filename == "" then
      ((400, noSelectedFileBody), store)
    else if file.filename != "" then
      match writeResult with
      | Except.ok _ =>
          ((201, uploadSuccessBody file.filename),
            writeBlob store file.filename ⟨file.content, file.contentType⟩)
      | Except.error e => ((500, uploadFailBody e), store)
    else
      ((500, unexpectedUploadBody), store)

/-- The 400 body for an empty delete filename. -/
def emptyFilenameBody : Json :=
  Json.obj [("error", Json.str "Filename cannot be empty.")]

/-- The 404 body when the blob to delete does not exist. -/
def deleteNotFoundBody (filename : String) : Json :=
  Json.obj [("error", Json.str ("File \x27" ++ filename ++ "\x27 not found."))]

/-- The 200 body of a successful deletion. -/
def deleteSuccessBody (filename : String) : Json :=
  Json.obj [("message", Json.str ("File \x27" ++ filename ++ "\x27 deleted successfully."))]

/-- The 500 body when `blob.delete()` raises: the exception is logged but
the body carries only this fixed message naming the filename. -/
def deleteFailBody (filename : String) : Json :=
  Json.obj [("error", Json.str ("Failed to delete file \x27" ++ filename ++ "\x27."))]

/-- Handler for DELETE /api/delete-image/<path:filename> (`delete_image`,
main.py lines 143-161). `deleteResult` is the outcome of `blob.delete()`;
when the existence check fails the delete is never attempted, so the
result does not depend on `deleteResult` in that branch. -/
def delete_image (filename : String) (store : Store)
    (deleteResult : Except String Unit) : Response × Store :=
  if filename == "" then
    ((400, emptyFilenameBody), store)
  else if !(blobExists store filename) then
    ((404, deleteNotFoundBody filename), store)
  else
    match deleteResult with
    | Except.ok _ => ((200, deleteSuccessBody filename), removeBlob store filename)
    | Except.error _ => ((500, deleteFailBody filename), store)

/-- Does `needle` occur at the head of `hay`? (character-list matching). -/
def listLeadsWith : List Char → List Char → Bool
  | [], _ => true
  | _ :: _, [] => false
  | a :: as, b :: bs => a == b && listLeadsWith as bs

/-- Does `needle` occur anywhere inside `hay` as a contiguous substring? -/
def strContains (hay needle : String) : Bool :=
  (List.range (hay.data.length + 1)).any fun i => listLeadsWith needle.data (hay.data.drop i)

/-! Helper lemmas shared by the claim theorems. -/

theorem collectMetadata_eq_map (sign : Signer) (blobs : List Blob) :
    collectMetadata sign blobs = blobs.map (blobRecord sign) := by
  induction blobs with
  | nil => rfl
  | cons b rest ih => simp [collectMetadata, ih]

theorem collectUrls_eq_filterMap (sign : Signer) (blobs : List Blob) :
    collectUrls sign blobs = blobs.filterMap (fun b => sign (signReq b)) := by
  induction blobs with
  | nil => rfl
  | cons b rest ih =>
    simp only [collectUrls, List.filterMap_cons]
    cases sign (signReq b) <;> simp [ih]

theorem collectUrls_congr (sign1 sign2 : Signer)
    (h : ∀ name, sign1 ⟨name, 15, HttpMethod.GET⟩ = sign2 ⟨name, 15, HttpMethod.GET⟩)
    (blobs : List Blob) : collectUrls sign1 blobs = collectUrls sign2 blobs := by
  induction blobs with
  | nil => rfl
  | cons b rest ih =>
    have hb : sign1 (signReq b) = sign2 (signReq b) := h b.name
    simp only [collectUrls, hb, ih]

theorem collectMetadata_congr (sign1 sign2 : Signer)
    (h : ∀ name, sign1 ⟨name, 15, HttpMethod.GET⟩ = sign2 ⟨name, 15, HttpMethod.GET⟩)
    (blobs : List Blob) : collectMetadata sign1 blobs = collectMetadata sign2 blobs := by
  induction blobs with
  | nil => rfl
  | cons b rest ih =>
    have hb : sign1 (signReq b) = sign2 (signReq b) := h b.name
    simp only [collectMetadata, blobRecord, hb, ih]

/-! Claim theorems. -/

/-- C1: for every enumerated blob sequence, GET /api/list-images returns 200
with exactly one record per blob in enumeration order; each record has shape
{name, filename, url, size, updated} with filename equal to name, and a blob
whose signing fails is still emitted with url null, so the output length
always equals the number of enumerated blobs. -/
theorem list_image_metadata_one_record_per_blob (sign : Signer) (blobs : List Blob) :
    list_image_metadata sign (Except.ok blobs)
      = (200, Json.arr (blobs.map (blobRecord sign)))
    ∧ (collectMetadata sign blobs).length = blobs.length
    ∧ ∀ b : Blob, sign (signReq b) = none →
        blobRecord sign b = Json.obj
          [ ("name", Json.str b.name)
          , ("filename", Json.str b.name)
          , ("url", Json.null)
          , ("size", Json.num b.size)
          , ("updated", jsonOfOptStr b.updated) ] := by
  refine ⟨?_, ?_, ?_⟩
  · simp [list_image_metadata, collectMetadata_eq_map]
  · simp [collectMetadata_eq_map]
  · intro b hb
    simp [blobRecord, hb, jsonOfOptStr]

/-- C1 witness: with a signer that always fails and one blob, the emitted
record carries url null. -/
theorem list_image_metadata_one_record_per_blob_witness :
    blobRecord (fun _ => none) ⟨"a.png", 3, none⟩ = Json.obj
      [ ("name", Json.str "a.png")
      , ("filename", Json.str "a.png")
      , ("url", Json.null)
      , ("size", Json.num 3)
      , ("updated", Json.null) ] :=
  (list_image_metadata_one_record_per_blob (fun _ => none) [⟨"a.png", 3, none⟩]).2.2
    ⟨"a.png", 3, none⟩ rfl

/-- C2: for every enumerated blob sequence, GET /api/images returns 200 with
exactly the signed URLs of the blobs whose signing succeeded, in enumeration
order and with no placeholder for failures, so the result is an
order-preserving subsequence of the per-blob outcomes and never longer than
the enumeration. -/
theorem get_image_urls_success_subsequence (sign : Signer) (blobs : List Blob) :
    get_image_urls sign (Except.ok blobs)
      = (200, Json.arr ((blobs.filterMap (fun b => sign (signReq b))).map Json.str))
    ∧ (collectUrls sign blobs).length ≤ blobs.length := by
  constructor
  · simp [get_image_urls, collectUrls_eq_filterMap]
  · rw [collectUrls_eq_filterMap]
    exact List.length_filterMap_le _ _

/-- C8: for both list handlers, a bucket-level enumeration failure aborts the
whole request with a 500 error body and no partial sequence. -/
theorem enumeration_failure_aborts (sign : Signer) (e : String) :
    get_image_urls sign (Except.error e)
      = (500, Json.obj [("error", Json.str ("Failed to retrieve image URLs: " ++ e))])
    ∧ list_image_metadata sign (Except.error e)
      = (500, Json.obj [("error", Json.str ("Failed to retrieve image list: " ++ e))]) :=
  ⟨rfl, rfl⟩

/-- C4: every signing request either list handler builds carries exactly the
15-minute expiry and method GET, so both handlers are insensitive to what a
signer does on any other expiry or method: two signers that agree on
15-minute GET requests produce identical responses. -/
theorem signing_uses_fixed_expiry_and_method (sign1 sign2 : Signer)
    (h : ∀ name, sign1 ⟨name, 15, HttpMethod.GET⟩ = sign2 ⟨name, 15, HttpMethod.GET⟩)
    (listing : Except String (List Blob)) :
    (∀ b : Blob, signReq b = ⟨b.name, 15, HttpMethod.GET⟩)
    ∧ get_image_urls sign1 listing = get_image_urls sign2 listing
    ∧ list_image_metadata sign1 listing = list_image_metadata sign2 listing := by
  refine ⟨fun b => rfl, ?_, ?_⟩
  · cases listing with
    | ok blobs => simp [get_image_urls, collectUrls_congr sign1 sign2 h]
    | error e => rfl
  · cases listing with
    | ok blobs => simp [list_image_metadata, collectMetadata_congr sign1 sign2 h]
    | error e => rfl

/-- C4 witness: a signer that never looks at the method and one that inspects
it agree on 15-minute GET requests, hence produce the same response on a
concrete enumeration. -/
theorem signing_uses_fixed_expiry_and_method_witness :
    get_image_urls (fun r => some r.blobName) (Except.ok [⟨"a.png", 3, none⟩])
      = get_image_urls
          (fun r => if r.method == HttpMethod.GET then some r.blobName else none)
          (Except.ok [⟨"a.png", 3, none⟩]) :=
  (signing_uses_fixed_expiry_and_method (fun r => some r.blobName)
      (fun r => if r.method == HttpMethod.GET then some r.blobName else none)
      (fun _ => rfl) (Except.ok [⟨"a.png", 3, none⟩])).2.1

theorem blobExists_removeBlob (store : Store) (name : String) :
    blobExists (removeBlob store name) name = false := by
  simp only [removeBlob, blobExists]
  induction store with
  | nil => rfl
  | cons p rest ih =>
    by_cases hp : p.1 = name <;> simp [List.filter_cons, hp, bne, ih]

theorem readBlob_writeBlob (store : Store) (name : String) (data : BlobData) :
    readBlob (writeBlob store name data) name = some data := by
  induction store with
  | nil => simp [writeBlob, readBlob, List.lookup]
  | cons p rest ih =>
    by_cases hp : p.1 = name
    · simp [writeBlob, hp, readBlob, List.lookup]
    · have hnp : (name == p.1) = false := beq_eq_false_iff_ne.mpr (fun h => hp h.symm)
      simp only [writeBlob, beq_iff_eq, hp, if_false, readBlob, List.lookup, hnp]
      simpa [readBlob] using ih

theorem upload_messages_distinct (e : String) :
    "Failed to upload file: " ++ e ≠ "An unexpected error occurred during file processing" := by
  intro h
  have hd : (("Failed to upload file: " : String).data ++ e.data).head?
      = (("An unexpected error occurred during file processing" : String).data).head? := by
    rw [← String.data_append, h]
  have hF : (("Failed to upload file: " : String).data ++ e.data).head? = some 'F' := rfl
  have hA : (("An unexpected error occurred during file processing" : String).data).head?
      = some 'A' := rfl
  rw [hF, hA] at hd
  exact absurd hd (by decide)

/-- C5: a request without an image file part, or with one whose filename is
empty, is rejected with 400 and the bucket contents are unchanged; the
missing-part check comes first (its message wins whenever the part is
absent), the empty-filename check second. -/
theorem upload_validation_rejects (files : List (String × FilePart)) (store : Store)
    (writeResult : Except String Unit) :
    (List.lookup "image" files = none →
        upload_file files store writeResult = ((400, noFilePartBody), store))
    ∧ (∀ f : FilePart, List.lookup "image" files = some f → f.filename = "" →
        upload_file files store writeResult = ((400, noSelectedFileBody), store)) := by
  constructor
  · intro h
    simp [upload_file, h]
  · intro f hf hempty
    simp [upload_file, hf, hempty]

/-- C5 witness: a request with no parts gets the missing-part 400, and one
with an empty filename gets the no-selected-file 400, both leaving the
bucket unchanged. -/
theorem upload_validation_rejects_witness :
    upload_file [] [] (Except.ok ()) = ((400, noFilePartBody), [])
    ∧ upload_file [("image", ⟨"", none, []⟩)] [] (Except.ok ())
        = ((400, noSelectedFileBody), []) :=
  ⟨(upload_validation_rejects [] [] (Except.ok ())).1 rfl,
   (upload_validation_rejects [("image", ⟨"", none, []⟩)] [] (Except.ok ())).2
     ⟨"", none, []⟩ rfl rfl⟩

/-- C6: a validated upload whose store write succeeds returns 201 with body
{message, filename, url:null}, the filename being the client-supplied one
unchanged, and the blob is written under exactly that name with the declared
content type preserved. -/
theorem upload_success (files : List (String × FilePart)) (store : Store) (f : FilePart)
    (hf : List.lookup "image" files = some f) (hne : f.filename ≠ "") :
    upload_file files store (Except.ok ())
      = ((201, uploadSuccessBody f.filename),
          writeBlob store f.filename ⟨f.content, f.contentType⟩)
    ∧ readBlob (writeBlob store f.filename ⟨f.content, f.contentType⟩) f.filename
        = some ⟨f.content, f.contentType⟩ := by
  have hfe : (f.filename == "") = false := beq_eq_false_iff_ne.mpr hne
  constructor
  · simp [upload_file, hf, hfe, bne]
  · exact readBlob_writeBlob store f.filename ⟨f.content, f.contentType⟩

/-- C6 witness: uploading cat.png with content type image/png into an empty
bucket returns 201 and stores the bytes under that name with that type. -/
theorem upload_success_witness :
    upload_file [("image", ⟨"cat.png", some "image/png", [1, 2]⟩)] [] (Except.ok ())
      = ((201, uploadSuccessBody "cat.png"), [("cat.png", ⟨[1, 2], some "image/png"⟩)]) :=
  (upload_success [("image", ⟨"cat.png", some "image/png", [1, 2]⟩)] []
      ⟨"cat.png", some "image/png", [1, 2]⟩ rfl (by decide)).1

/-- C7: a validated upload whose store write fails returns 500 with an error
body carrying the underlying store error message, and the bucket contents
are unchanged. -/
theorem upload_write_failure (files : List (String × FilePart)) (store : Store)
    (f : FilePart) (e : String)
    (hf : List.lookup "image" files = some f) (hne : f.filename ≠ "") :
    upload_file files store (Except.error e) = ((500, uploadFailBody e), store) := by
  have hfe : (f.filename == "") = false := beq_eq_false_iff_ne.mpr hne
  simp [upload_file, hf, hfe, bne]

/-- C7 witness: a failing write with message boom yields 500 with that
message in the body. -/
theorem upload_write_failure_witness :
    upload_file [("image", ⟨"cat.png", none, []⟩)] [] (Except.error "boom")
      = ((500, uploadFailBody "boom"), []) :=
  upload_write_failure [("image", ⟨"cat.png", none, []⟩)] []
    ⟨"cat.png", none, []⟩ "boom" rfl (by decide)

/-- C10: once the image part is present with a non-empty filename, the file
object is truthy, so the final fallback 500 body is unreachable: the handler
returns 201 on a successful write, and otherwise the 500 carrying the store
error. -/
theorem upload_fallback_unreachable (files : List (String × FilePart)) (store : Store)
    (writeResult : Except String Unit) (f : FilePart)
    (hf : List.lookup "image" files = some f) (hne : f.filename ≠ "") :
    (upload_file files store writeResult).1.2 ≠ unexpectedUploadBody
    ∧ ((upload_file files store writeResult).1.1 = 201
       ∨ ∃ e, writeResult = Except.error e
           ∧ (upload_file files store writeResult).1 = (500, uploadFailBody e)) := by
  have hfe : (f.filename == "") = false := beq_eq_false_iff_ne.mpr hne
  cases writeResult with
  | ok u =>
    cases u
    constructor
    · simp [upload_file, hf, hfe, bne, uploadSuccessBody, unexpectedUploadBody]
    · left
      simp [upload_file, hf, hfe, bne]
  | error e =>
    constructor
    · simp only [upload_file, hf, hfe, bne]
      simp [uploadFailBody, unexpectedUploadBody]
      exact fun hcontra => upload_messages_distinct e hcontra
    · right
      exact ⟨e, rfl, by simp [upload_file, hf, hfe, bne]⟩

/-- C10 witness: on a concrete validated request with a successful write the
status is 201, not the fallback body. -/
theorem upload_fallback_unreachable_witness :
    (upload_file [("image", ⟨"cat.png", none, []⟩)] [] (Except.ok ())).1.2
      ≠ unexpectedUploadBody :=
  (upload_fallback_unreachable [("image", ⟨"cat.png", none, []⟩)] [] (Except.ok ())
      ⟨"cat.png", none, []⟩ rfl (by decide)).1

/-- C3: the delete handler checks existence before deleting: on a missing
blob it returns 404 with the store untouched and without consulting the
delete outcome at all (the delete is never attempted); on an existing blob a
successful delete returns 200 with a message and removes the blob, after
which a second delete of the same name returns 404. -/
theorem delete_image_existence_check (filename : String) (store : Store)
    (d1 d2 : Except String Unit) (hne : filename ≠ "") :
    (blobExists store filename = false →
        delete_image filename store d1 = ((404, deleteNotFoundBody filename), store)
        ∧ delete_image filename store d1 = delete_image filename store d2)
    ∧ (blobExists store filename = true →
        delete_image filename store (Except.ok ())
          = ((200, deleteSuccessBody filename), removeBlob store filename)
        ∧ delete_image filename (removeBlob store filename) d2
          = ((404, deleteNotFoundBody filename), removeBlob store filename)) := by
  have hfe : (filename == "") = false := beq_eq_false_iff_ne.mpr hne
  constructor
  · intro hex
    constructor <;> simp [delete_image, hfe, hex]
  · intro hex
    constructor
    · simp [delete_image, hfe, hex]
    · simp [delete_image, hfe, blobExists_removeBlob]

/-- C3 witness: deleting a.png from a bucket holding it succeeds and removes
it, and the immediate second delete returns 404. -/
theorem delete_image_existence_check_witness :
    delete_image "a.png" [("a.png", ⟨[1], none⟩)] (Except.ok ())
      = ((200, deleteSuccessBody "a.png"), removeBlob [("a.png", ⟨[1], none⟩)] "a.png")
    ∧ delete_image "a.png" (removeBlob [("a.png", ⟨[1], none⟩)] "a.png") (Except.ok ())
      = ((404, deleteNotFoundBody "a.png"), removeBlob [("a.png", ⟨[1], none⟩)] "a.png") :=
  (delete_image_existence_check "a.png" [("a.png", ⟨[1], none⟩)]
      (Except.ok ()) (Except.ok ()) (by decide)).2 rfl

/-- C9 counterexample: with blob a.png present and the store delete failing
with message boom, the handler returns 500 with the fixed body naming only
the filename; the response is identical for a different store error zap, and
the body text does not contain boom, so the underlying store error message
is not passed through to the caller. -/
theorem delete_failure_message_not_passed_through :
    delete_image "a.png" [("a.png", ⟨[1], none⟩)] (Except.error "boom")
      = ((500, deleteFailBody "a.png"), [("a.png", ⟨[1], none⟩)])
    ∧ delete_image "a.png" [("a.png", ⟨[1], none⟩)] (Except.error "boom")
      = delete_image "a.png" [("a.png", ⟨[1], none⟩)] (Except.error "zap")
    ∧ strContains "Failed to delete file \x27a.png\x27." "boom" = false :=
  ⟨rfl, rfl, rfl⟩

/-- C9 amended: when the blob exists and the store delete fails, the handler
returns 500 with the fixed error body naming the filename (the underlying
store error is logged, not included in the response), and the bucket
contents are unchanged. -/
theorem delete_store_failure_fixed_body (filename : String) (store : Store) (e : String)
    (hne : filename ≠ "") (hex : blobExists store filename = true) :
    delete_image filename store (Except.error e)
      = ((500, deleteFailBody filename), store) := by
  have hfe : (filename == "") = false := beq_eq_false_iff_ne.mpr hne
  simp [delete_image, hfe, hex]

/-- C9 amended witness: a failing delete of an existing a.png returns 500
with the fixed body. -/
theorem delete_store_failure_fixed_body_witness :
    delete_image "a.png" [("a.png", ⟨[1], none⟩)] (Except.error "boom")
      = ((500, deleteFailBody "a.png"), [("a.png", ⟨[1], none⟩)]) :=
  delete_store_failure_fixed_body "a.png" [("a.png", ⟨[1], none⟩)] "boom"
    (by decide) rfl

end ImageWebsite
